import Mathlib

/-!
Verification of the Mergington High School activity-signup backend
(`src/app.py`), a FastAPI application over three in-memory dictionaries:
a session store (token → username), a teacher directory (username →
password) and an activity store (name → activity record).

Python dictionaries are embedded as association lists `List (String × α)`
with dictionary-assignment, deletion and lookup operations that mirror
CPython semantics (assignment replaces the value of the first matching
key in place, preserving insertion order; otherwise it appends).
HTTP exceptions raised by the handlers are embedded as an `Except` error
result carrying the status code and detail string; a handler that raises
leaves the state unchanged, so each handler returns a pair of its
response and the post-state.
-/

set_option autoImplicit false

namespace Mergington

/-- One entry of the in-memory activity database: the value type of the
`activities` dictionary in `app.py`. -/
structure Activity where
  description : String
  schedule : String
  max_participants : Nat
  participants : List String
deriving DecidableEq

/-- An HTTP error response, as raised by `HTTPException(status_code, detail)`. -/
structure HTTPError where
  status_code : Nat
  detail : String
deriving DecidableEq

/-- The parts of an incoming request the handlers inspect: the
`admin_token` cookie and the `X-Admin-Token` header. -/
structure Request where
  cookie_admin_token : Option String
  header_x_admin_token : Option String
deriving DecidableEq

/-- The JSON body of a login request; `payload.get` yields `none` for a
missing field. -/
structure LoginPayload where
  username : Option String
  password : Option String
deriving DecidableEq

/-- The process-wide mutable state of `app.py`: the `sessions`, `teachers`
and `activities` module-level dictionaries. -/
structure AppState where
  sessions : List (String × String)
  teachers : List (String × String)
  activities : List (String × Activity)
deriving DecidableEq

/-- Python `d[k]` / `d.get(k)`: value of the first entry with key `k`. -/
def dictLookup {α : Type} (k : String) : List (String × α) → Option α
  | [] => none
  | (k', v') :: rest => if k' = k then some v' else dictLookup k rest

/-- Python `d[k] = v`: replace the value at key `k` in place if present,
else append a new entry. -/
def dictInsert {α : Type} (k : String) (v : α) : List (String × α) → List (String × α)
  | [] => [(k, v)]
  | (k', v') :: rest => if k' = k then (k', v) :: rest else (k', v') :: dictInsert k v rest

/-- Python `del d[k]`: drop the first entry with key `k`. -/
def dictErase {α : Type} (k : String) : List (String × α) → List (String × α)
  | [] => []
  | (k', v') :: rest => if k' = k then rest else (k', v') :: dictErase k rest

/-- Apply `f` to the value stored at key `k` (models mutating the looked-up
value object in place, as `activity["participants"].append(...)` does). -/
def dictUpdate {α : Type} (k : String) (f : α → α) : List (String × α) → List (String × α)
  | [] => []
  | (k', v') :: rest => if k' = k then (k', f v') :: rest else (k', v') :: dictUpdate k f rest

/-- Python `list.remove(x)`: drop the first occurrence of `x`. -/
def removeFirst (x : String) : List String → List String
  | [] => []
  | y :: rest => if y = x then rest else y :: removeFirst x rest

/-- `get_token_from_request`: prefer the cookie; a missing or empty (falsy)
cookie falls back to the `X-Admin-Token` header. -/
def get_token_from_request (r : Request) : Option String :=
  match r.cookie_admin_token with
  | some t => if t = "" then r.header_x_admin_token else some t
  | none => r.header_x_admin_token

/-- `require_teacher`: raise 401 unless the request carries a truthy token
that is a key of the session store; on success return the session's
username. -/
def require_teacher (s : AppState) (r : Request) : Except HTTPError String :=
  match get_token_from_request r with
  | none => .error ⟨401, "Admin authentication required"⟩
  | some token =>
    if token = "" then .error ⟨401, "Admin authentication required"⟩
    else
      match dictLookup token s.sessions with
      | none => .error ⟨401, "Admin authentication required"⟩
      | some username => .ok username

/-- `GET /activities`: return the full activity dictionary. -/
def get_activities (s : AppState) : List (String × Activity) :=
  s.activities

/-- `POST /activities/{activity_name}/signup`: require a teacher session,
require the activity to exist, refuse an email already signed up, and
otherwise append the email to the activity's participant list. -/
def signup_for_activity (s : AppState) (activity_name email : String) (r : Request) :
    Except HTTPError String × AppState :=
  match require_teacher s r with
  | .error e => (.error e, s)
  | .ok _ =>
    match dictLookup activity_name s.activities with
    | none => (.error ⟨404, "Activity not found"⟩, s)
    | some activity =>
      if email ∈ activity.participants then
        (.error ⟨400, "Student is already signed up"⟩, s)
      else
        let updated := dictUpdate activity_name
          (fun a => { a with participants := a.participants ++ [email] }) s.activities
        (.ok ("Signed up " ++ email ++ " for " ++ activity_name),
         { s with activities := updated })

/-- `DELETE /activities/{activity_name}/unregister`: require a teacher
session, require the activity to exist, refuse an email that is not signed
up, and otherwise remove the first occurrence of the email. -/
def unregister_from_activity (s : AppState) (activity_name email : String) (r : Request) :
    Except HTTPError String × AppState :=
  match require_teacher s r with
  | .error e => (.error e, s)
  | .ok _ =>
    match dictLookup activity_name s.activities with
    | none => (.error ⟨404, "Activity not found"⟩, s)
    | some activity =>
      if email ∈ activity.participants then
        let updated := dictUpdate activity_name
          (fun a => { a with participants := removeFirst email a.participants }) s.activities
        (.ok ("Unregistered " ++ email ++ " from " ++ activity_name),
         { s with activities := updated })
      else
        (.error ⟨400, "Student is not signed up for this activity"⟩, s)

/-- `POST /admin/login`: 400 if either payload field is missing or falsy
(the empty string), 401 if the username is not a teacher or the stored
password differs from the supplied one, and otherwise store
`token → username` in the session store and return the token.  The token
is `uuid.uuid4().hex` in the source; the generator's output is passed in
as the `token` argument. -/
def admin_login (s : AppState) (payload : LoginPayload) (token : String) :
    Except HTTPError String × AppState :=
  match payload.username, payload.password with
  | some u, some p =>
    if u = "" ∨ p = "" then
      (.error ⟨400, "username and password required"⟩, s)
    else if dictLookup u s.teachers = none ∨ dictLookup u s.teachers ≠ some p then
      (.error ⟨401, "invalid credentials"⟩, s)
    else
      (.ok token, { s with sessions := dictInsert token u s.sessions })
  | _, _ => (.error ⟨400, "username and password required"⟩, s)

/-- `POST /admin/logout`: delete the request's token from the session store
when it is truthy and present; always report success. -/
def admin_logout (s : AppState) (r : Request) : String × AppState :=
  match get_token_from_request r with
  | some token =>
    if token ≠ "" ∧ (dictLookup token s.sessions).isSome then
      ("logged out", { s with sessions := dictErase token s.sessions })
    else
      ("logged out", s)
  | none => ("logged out", s)

/-- `resolveSession` of the spec: look the token up in the session store;
this is the lookup `require_teacher` performs on an extracted token. -/
def resolveSession (s : AppState) (token : String) : Option String :=
  dictLookup token s.sessions

/-- The seeded `activities` dictionary of `app.py`. -/
def initActivities : List (String × Activity) :=
  [("Chess Club",
    { description := "Learn strategies and compete in chess tournaments",
      schedule := "Fridays, 3:30 PM - 5:00 PM",
      max_participants := 12,
      participants := ["michael@mergington.edu", "daniel@mergington.edu"] }),
   ("Programming Class",
    { description := "Learn programming fundamentals and build software projects",
      schedule := "Tuesdays and Thursdays, 3:30 PM - 4:30 PM",
      max_participants := 20,
      participants := ["emma@mergington.edu", "sophia@mergington.edu"] }),
   ("Gym Class",
    { description := "Physical education and sports activities",
      schedule := "Mondays, Wednesdays, Fridays, 2:00 PM - 3:00 PM",
      max_participants := 30,
      participants := ["john@mergington.edu", "olivia@mergington.edu"] }),
   ("Soccer Team",
    { description := "Join the school soccer team and compete in matches",
      schedule := "Tuesdays and Thursdays, 4:00 PM - 5:30 PM",
      max_participants := 22,
      participants := ["liam@mergington.edu", "noah@mergington.edu"] }),
   ("Basketball Team",
    { description := "Practice and play basketball with the school team",
      schedule := "Wednesdays and Fridays, 3:30 PM - 5:00 PM",
      max_participants := 15,
      participants := ["ava@mergington.edu", "mia@mergington.edu"] }),
   ("Art Club",
    { description := "Explore your creativity through painting and drawing",
      schedule := "Thursdays, 3:30 PM - 5:00 PM",
      max_participants := 15,
      participants := ["amelia@mergington.edu", "harper@mergington.edu"] }),
   ("Drama Club",
    { description := "Act, direct, and produce plays and performances",
      schedule := "Mondays and Wednesdays, 4:00 PM - 5:30 PM",
      max_participants := 20,
      participants := ["ella@mergington.edu", "scarlett@mergington.edu"] }),
   ("Math Club",
    { description := "Solve challenging problems and participate in math competitions",
      schedule := "Tuesdays, 3:30 PM - 4:30 PM",
      max_participants := 10,
      participants := ["james@mergington.edu", "benjamin@mergington.edu"] }),
   ("Debate Team",
    { description := "Develop public speaking and argumentation skills",
      schedule := "Fridays, 4:00 PM - 5:30 PM",
      max_participants := 12,
      participants := ["charlotte@mergington.edu", "henry@mergington.edu"] })]

/-- The state right after startup: empty session store, the seeded
activities, and whatever teacher directory `load_teachers` produced from
`teachers.json` (that file is external configuration, so the directory is
an arbitrary dictionary, empty when the file is missing or malformed). -/
def initState (ts : List (String × String)) : AppState :=
  { sessions := [], teachers := ts, activities := initActivities }

/-! ### Dictionary lemmas -/

theorem dictLookup_dictUpdate_self {α : Type} (k : String) (f : α → α)
    (d : List (String × α)) :
    dictLookup k (dictUpdate k f d) = (dictLookup k d).map f := by
  induction d with
  | nil => rfl
  | cons p rest ih =>
    obtain ⟨k', v'⟩ := p
    by_cases h : k' = k <;> simp [dictUpdate, dictLookup, h, ih]

theorem dictLookup_dictUpdate_ne {α : Type} (k k' : String) (f : α → α)
    (d : List (String × α)) (h : k' ≠ k) :
    dictLookup k' (dictUpdate k f d) = dictLookup k' d := by
  induction d with
  | nil => rfl
  | cons p rest ih =>
    obtain ⟨k₀, v₀⟩ := p
    simp only [dictUpdate]
    by_cases h₀ : k₀ = k
    · rw [if_pos h₀]
      have h₁ : ¬ (k₀ = k') := fun hc => h (hc.symm.trans h₀)
      simp only [dictLookup, if_neg h₁]
    · rw [if_neg h₀]
      simp only [dictLookup]
      by_cases h₁ : k₀ = k'
      · rw [if_pos h₁, if_pos h₁]
      · rw [if_neg h₁, if_neg h₁, ih]

theorem dictUpdate_keys {α : Type} (k : String) (f : α → α) (d : List (String × α)) :
    (dictUpdate k f d).map Prod.fst = d.map Prod.fst := by
  induction d with
  | nil => rfl
  | cons p rest ih =>
    obtain ⟨k₀, v₀⟩ := p
    by_cases h : k₀ = k <;> simp [dictUpdate, h, ih]

theorem dictLookup_dictInsert_self {α : Type} (k : String) (v : α) (d : List (String × α)) :
    dictLookup k (dictInsert k v d) = some v := by
  induction d with
  | nil => simp [dictInsert, dictLookup]
  | cons p rest ih =>
    obtain ⟨k₀, v₀⟩ := p
    by_cases h : k₀ = k <;> simp [dictInsert, dictLookup, h, ih]

theorem dictLookup_dictInsert_ne {α : Type} (k k' : String) (v : α)
    (d : List (String × α)) (h : k' ≠ k) :
    dictLookup k' (dictInsert k v d) = dictLookup k' d := by
  induction d with
  | nil =>
    have h₁ : ¬ (k = k') := fun hc => h hc.symm
    simp [dictInsert, dictLookup, h₁]
  | cons p rest ih =>
    obtain ⟨k₀, v₀⟩ := p
    simp only [dictInsert]
    by_cases h₀ : k₀ = k
    · rw [if_pos h₀]
      have h₁ : ¬ (k₀ = k') := fun hc => h (hc.symm.trans h₀)
      simp only [dictLookup, if_neg h₁]
    · rw [if_neg h₀]
      simp only [dictLookup]
      by_cases h₁ : k₀ = k'
      · rw [if_pos h₁, if_pos h₁]
      · rw [if_neg h₁, if_neg h₁, ih]

theorem dictLookup_eq_none_iff {α : Type} (k : String) (d : List (String × α)) :
    dictLookup k d = none ↔ k ∉ d.map Prod.fst := by
  induction d with
  | nil => simp [dictLookup]
  | cons p rest ih =>
    obtain ⟨k₀, v₀⟩ := p
    by_cases h : k₀ = k
    · simp [dictLookup, h]
    · simp [dictLookup, h, ih, Ne.symm h]

theorem mem_keys_dictInsert {α : Type} (k k' : String) (v : α) (d : List (String × α)) :
    k' ∈ (dictInsert k v d).map Prod.fst ↔ k' = k ∨ k' ∈ d.map Prod.fst := by
  induction d with
  | nil => simp [dictInsert]
  | cons p rest ih =>
    obtain ⟨k₀, v₀⟩ := p
    by_cases h₀ : k₀ = k
    · rw [show dictInsert k v ((k₀, v₀) :: rest) = (k₀, v) :: rest from by
        simp [dictInsert, h₀]]
      simp only [List.map_cons, List.mem_cons, h₀]
      tauto
    · rw [show dictInsert k v ((k₀, v₀) :: rest) = (k₀, v₀) :: dictInsert k v rest from by
        simp [dictInsert, h₀]]
      simp only [List.map_cons, List.mem_cons, ih]
      tauto

theorem keys_dictInsert_nodup {α : Type} (k : String) (v : α) (d : List (String × α))
    (h : (d.map Prod.fst).Nodup) : ((dictInsert k v d).map Prod.fst).Nodup := by
  induction d with
  | nil => simp [dictInsert]
  | cons p rest ih =>
    obtain ⟨k₀, v₀⟩ := p
    simp only [List.map_cons, List.nodup_cons] at h
    by_cases h₀ : k₀ = k
    · simp only [dictInsert, if_pos h₀, List.map_cons, List.nodup_cons]
      exact ⟨h.1, h.2⟩
    · simp only [dictInsert, if_neg h₀, List.map_cons, List.nodup_cons]
      refine ⟨?_, ih h.2⟩
      intro hm
      rcases (mem_keys_dictInsert k k₀ v rest).mp hm with hc | hc
      · exact h₀ hc
      · exact h.1 hc

theorem dictLookup_dictErase_self {α : Type} (k : String) (d : List (String × α))
    (h : (d.map Prod.fst).Nodup) : dictLookup k (dictErase k d) = none := by
  induction d with
  | nil => rfl
  | cons p rest ih =>
    obtain ⟨k₀, v₀⟩ := p
    simp only [List.map_cons, List.nodup_cons] at h
    by_cases hk : k₀ = k
    · subst hk
      simpa [dictErase, dictLookup_eq_none_iff] using h.1
    · simp [dictErase, dictLookup, hk, ih h.2]

theorem dictLookup_mem {α : Type} (k : String) (v : α) (d : List (String × α))
    (h : dictLookup k d = some v) : (k, v) ∈ d := by
  induction d with
  | nil => simp [dictLookup] at h
  | cons p rest ih =>
    obtain ⟨k₀, v₀⟩ := p
    by_cases hk : k₀ = k
    · subst hk
      simp [dictLookup] at h
      simp [h]
    · simp only [dictLookup, hk, if_false] at h
      exact List.mem_cons_of_mem _ (ih h)

theorem mem_dictUpdate {α : Type} (k : String) (f : α → α) (d : List (String × α))
    (q : String × α) (hq : q ∈ dictUpdate k f d) :
    q ∈ d ∨ ∃ v, dictLookup k d = some v ∧ q = (k, f v) := by
  induction d with
  | nil => simp [dictUpdate] at hq
  | cons p rest ih =>
    obtain ⟨k₀, v₀⟩ := p
    by_cases hk : k₀ = k
    · rw [show dictUpdate k f ((k₀, v₀) :: rest) = (k₀, f v₀) :: rest from by
        simp [dictUpdate, hk]] at hq
      rcases List.mem_cons.mp hq with h1 | h1
      · refine Or.inr ⟨v₀, ?_, ?_⟩
        · simp [dictLookup, hk]
        · rw [h1, hk]
      · exact Or.inl (List.mem_cons_of_mem _ h1)
    · rw [show dictUpdate k f ((k₀, v₀) :: rest) = (k₀, v₀) :: dictUpdate k f rest from by
        simp [dictUpdate, hk]] at hq
      rcases List.mem_cons.mp hq with h1 | h1
      · exact Or.inl (by simp [h1])
      · rcases ih h1 with h2 | ⟨v, hv, hqv⟩
        · exact Or.inl (List.mem_cons_of_mem _ h2)
        · refine Or.inr ⟨v, ?_, hqv⟩
          simp [dictLookup, hk, hv]

/-! ### `removeFirst` lemmas -/

theorem removeFirst_sublist (x : String) (l : List String) :
    List.Sublist (removeFirst x l) l := by
  induction l with
  | nil => simp [removeFirst]
  | cons y rest ih =>
    by_cases h : y = x
    · rw [show removeFirst x (y :: rest) = rest from by simp [removeFirst, h]]
      exact List.sublist_cons_self y rest
    · rw [show removeFirst x (y :: rest) = y :: removeFirst x rest from by
        simp [removeFirst, h]]
      exact List.Sublist.cons₂ y ih

theorem count_removeFirst_add_one (x : String) (l : List String) (h : x ∈ l) :
    (removeFirst x l).count x + 1 = l.count x := by
  induction l with
  | nil => simp at h
  | cons y rest ih =>
    by_cases hy : y = x
    · subst hy
      simp [removeFirst, List.count_cons]
    · have hx : x ∈ rest := by
        rcases List.mem_cons.mp h with h' | h'
        · exact absurd h'.symm hy
        · exact h'
      simp only [removeFirst, hy, if_false, List.count_cons]
      rw [← ih hx]
      simp [hy]

theorem not_mem_removeFirst_of_nodup (x : String) (l : List String)
    (hnd : l.Nodup) (h : x ∈ l) : x ∉ removeFirst x l := by
  intro hmem
  have h1 := count_removeFirst_add_one x l h
  have hle : l.count x ≤ 1 := List.nodup_iff_count_le_one.mp hnd x
  have hge : 1 ≤ (removeFirst x l).count x := List.count_pos_iff.mpr hmem
  omega

theorem removeFirst_nodup (x : String) (l : List String) (hnd : l.Nodup) :
    (removeFirst x l).Nodup :=
  (removeFirst_sublist x l).nodup hnd

/-! ### Handler framing helpers -/

theorem require_teacher_congr (s s' : AppState) (r : Request)
    (h : s'.sessions = s.sessions) : require_teacher s' r = require_teacher s r := by
  unfold require_teacher
  cases get_token_from_request r <;> simp [h]

/-! ### Handler result shapes -/

theorem signup_success (s : AppState) (A E : String) (r : Request) (u : String)
    (hauth : require_teacher s r = .ok u) (act : Activity)
    (hA : dictLookup A s.activities = some act) (hE : E ∉ act.participants) :
    signup_for_activity s A E r =
      (.ok ("Signed up " ++ E ++ " for " ++ A),
       { s with activities := (dictUpdate A
           (fun a => { a with participants := a.participants ++ [E] }) s.activities) }) := by
  simp [signup_for_activity, hauth, hA, hE]

theorem signup_already (s : AppState) (A E : String) (r : Request) (u : String)
    (hauth : require_teacher s r = .ok u) (act : Activity)
    (hA : dictLookup A s.activities = some act) (hE : E ∈ act.participants) :
    signup_for_activity s A E r = (.error ⟨400, "Student is already signed up"⟩, s) := by
  simp [signup_for_activity, hauth, hA, hE]

theorem signup_notfound (s : AppState) (A E : String) (r : Request) (u : String)
    (hauth : require_teacher s r = .ok u) (hA : dictLookup A s.activities = none) :
    signup_for_activity s A E r = (.error ⟨404, "Activity not found"⟩, s) := by
  simp [signup_for_activity, hauth, hA]

theorem signup_unauth (s : AppState) (A E : String) (r : Request) (e : HTTPError)
    (hauth : require_teacher s r = .error e) :
    signup_for_activity s A E r = (.error e, s) := by
  simp [signup_for_activity, hauth]

theorem unregister_success (s : AppState) (A E : String) (r : Request) (u : String)
    (hauth : require_teacher s r = .ok u) (act : Activity)
    (hA : dictLookup A s.activities = some act) (hE : E ∈ act.participants) :
    unregister_from_activity s A E r =
      (.ok ("Unregistered " ++ E ++ " from " ++ A),
       { s with activities := (dictUpdate A
           (fun a => { a with participants := removeFirst E a.participants }) s.activities) }) := by
  simp [unregister_from_activity, hauth, hA, hE]

theorem unregister_notsigned (s : AppState) (A E : String) (r : Request) (u : String)
    (hauth : require_teacher s r = .ok u) (act : Activity)
    (hA : dictLookup A s.activities = some act) (hE : E ∉ act.participants) :
    unregister_from_activity s A E r =
      (.error ⟨400, "Student is not signed up for this activity"⟩, s) := by
  simp [unregister_from_activity, hauth, hA, hE]

theorem unregister_notfound (s : AppState) (A E : String) (r : Request) (u : String)
    (hauth : require_teacher s r = .ok u) (hA : dictLookup A s.activities = none) :
    unregister_from_activity s A E r = (.error ⟨404, "Activity not found"⟩, s) := by
  simp [unregister_from_activity, hauth, hA]

theorem unregister_unauth (s : AppState) (A E : String) (r : Request) (e : HTTPError)
    (hauth : require_teacher s r = .error e) :
    unregister_from_activity s A E r = (.error e, s) := by
  simp [unregister_from_activity, hauth]

theorem require_teacher_error_eq (s : AppState) (r : Request) (e : HTTPError)
    (h : require_teacher s r = .error e) : e = ⟨401, "Admin authentication required"⟩ := by
  unfold require_teacher at h
  split at h
  · exact (Except.error.inj h).symm
  · split at h
    · exact (Except.error.inj h).symm
    · split at h
      · exact (Except.error.inj h).symm
      · exact absurd h (by simp)

/-! ### Sample states used to witness the claims on concrete inputs -/

/-- A concrete state: one logged-in teacher session on top of the seed data. -/
def sampleState : AppState :=
  { sessions := [("tok1", "alice")], teachers := [("alice", "pw")],
    activities := initActivities }

/-- A request carrying the valid session token of `sampleState` as a cookie. -/
def sampleAuthReq : Request :=
  { cookie_admin_token := some "tok1", header_x_admin_token := none }

/-- A request carrying no token at all. -/
def sampleAnonReq : Request :=
  { cookie_admin_token := none, header_x_admin_token := none }

/-- The seeded Chess Club record. -/
def chessClub : Activity :=
  { description := "Learn strategies and compete in chess tournaments",
    schedule := "Fridays, 3:30 PM - 5:00 PM",
    max_participants := 12,
    participants := ["michael@mergington.edu", "daniel@mergington.edu"] }

/-! ### Claims -/

/-- **C1.** For every activity `A` in the store and email `E` not already among
its participants, an authenticated signup succeeds and appends `E`, so listing
the activities afterwards shows `E` in `A`; in that new state a second signup
of the same email fails with HTTP 400 "Student is already signed up", leaves
the state unchanged, and `A`'s participant list holds exactly one copy of `E`. -/
theorem signup_appends_and_rejects_duplicate (s : AppState) (A E : String)
    (r : Request) (u : String) (hauth : require_teacher s r = .ok u)
    (act : Activity) (hA : dictLookup A s.activities = some act)
    (hE : E ∉ act.participants) :
    ∃ act',
      (signup_for_activity s A E r).1 = .ok ("Signed up " ++ E ++ " for " ++ A) ∧
      dictLookup A (get_activities (signup_for_activity s A E r).2) = some act' ∧
      E ∈ act'.participants ∧
      act'.participants.count E = 1 ∧
      (signup_for_activity (signup_for_activity s A E r).2 A E r).1 =
        .error ⟨400, "Student is already signed up"⟩ ∧
      (signup_for_activity (signup_for_activity s A E r).2 A E r).2 =
        (signup_for_activity s A E r).2 := by
  have hs := signup_success s A E r u hauth act hA hE
  have hauth' : require_teacher (signup_for_activity s A E r).2 r = .ok u := by
    rw [require_teacher_congr s (signup_for_activity s A E r).2 r (by rw [hs])]
    exact hauth
  have hA' : dictLookup A (signup_for_activity s A E r).2.activities =
      some { act with participants := act.participants ++ [E] } := by
    rw [hs]
    show dictLookup A
        (dictUpdate A (fun a => { a with participants := a.participants ++ [E] })
          s.activities) =
      some { act with participants := act.participants ++ [E] }
    rw [dictLookup_dictUpdate_self, hA]
    rfl
  have h2 := signup_already (signup_for_activity s A E r).2 A E r u hauth'
    { act with participants := act.participants ++ [E] } hA' (by simp)
  refine ⟨{ act with participants := act.participants ++ [E] }, ?_, ?_, ?_, ?_, ?_, ?_⟩
  · rw [hs]
  · exact hA'
  · simp
  · simp [List.count_append, List.count_eq_zero.mpr hE]
  · rw [h2]
  · rw [h2]

/-- Witness for C1: signing `new@x.edu` up for the seeded Chess Club. -/
theorem signup_appends_and_rejects_duplicate_witness :
    ∃ act',
      (signup_for_activity sampleState "Chess Club" "new@x.edu" sampleAuthReq).1 =
        .ok ("Signed up " ++ "new@x.edu" ++ " for " ++ "Chess Club") ∧
      dictLookup "Chess Club"
        (get_activities
          (signup_for_activity sampleState "Chess Club" "new@x.edu" sampleAuthReq).2) =
        some act' ∧
      "new@x.edu" ∈ act'.participants ∧
      act'.participants.count "new@x.edu" = 1 ∧
      (signup_for_activity
        (signup_for_activity sampleState "Chess Club" "new@x.edu" sampleAuthReq).2
        "Chess Club" "new@x.edu" sampleAuthReq).1 =
        .error ⟨400, "Student is already signed up"⟩ ∧
      (signup_for_activity
        (signup_for_activity sampleState "Chess Club" "new@x.edu" sampleAuthReq).2
        "Chess Club" "new@x.edu" sampleAuthReq).2 =
        (signup_for_activity sampleState "Chess Club" "new@x.edu" sampleAuthReq).2 :=
  signup_appends_and_rejects_duplicate sampleState "Chess Club" "new@x.edu" sampleAuthReq
    "alice" (by rfl) chessClub (by rfl) (by decide)

/-- **C2.** For an activity in the store whose (duplicate-free) participant
list contains `E`, an authenticated unregister succeeds and removes exactly
one occurrence of `E` (the count drops by one), and it is not idempotent:
repeating the call returns HTTP 400 "Student is not signed up for this
activity" and leaves the state unchanged. -/
theorem unregister_removes_one_and_not_idempotent (s : AppState) (A E : String)
    (r : Request) (u : String) (hauth : require_teacher s r = .ok u)
    (act : Activity) (hA : dictLookup A s.activities = some act)
    (hE : E ∈ act.participants) (hnd : act.participants.Nodup) :
    (unregister_from_activity s A E r).1 = .ok ("Unregistered " ++ E ++ " from " ++ A) ∧
    dictLookup A (unregister_from_activity s A E r).2.activities =
      some { act with participants := removeFirst E act.participants } ∧
    (removeFirst E act.participants).count E + 1 = act.participants.count E ∧
    (unregister_from_activity (unregister_from_activity s A E r).2 A E r).1 =
      .error ⟨400, "Student is not signed up for this activity"⟩ ∧
    (unregister_from_activity (unregister_from_activity s A E r).2 A E r).2 =
      (unregister_from_activity s A E r).2 := by
  have hs := unregister_success s A E r u hauth act hA hE
  have hauth' : require_teacher (unregister_from_activity s A E r).2 r = .ok u := by
    rw [require_teacher_congr s (unregister_from_activity s A E r).2 r (by rw [hs])]
    exact hauth
  have hA' : dictLookup A (unregister_from_activity s A E r).2.activities =
      some { act with participants := removeFirst E act.participants } := by
    rw [hs]
    show dictLookup A
        (dictUpdate A (fun a => { a with participants := removeFirst E a.participants })
          s.activities) =
      some { act with participants := removeFirst E act.participants }
    rw [dictLookup_dictUpdate_self, hA]
    rfl
  have h2 := unregister_notsigned (unregister_from_activity s A E r).2 A E r u hauth'
    { act with participants := removeFirst E act.participants } hA'
    (not_mem_removeFirst_of_nodup E act.participants hnd hE)
  refine ⟨?_, hA', count_removeFirst_add_one E act.participants hE, ?_, ?_⟩
  · rw [hs]
  · rw [h2]
  · rw [h2]

/-- Witness for C2: unregistering `michael@mergington.edu` from the seeded
Chess Club. -/
theorem unregister_removes_one_and_not_idempotent_witness :
    (unregister_from_activity sampleState "Chess Club" "michael@mergington.edu"
      sampleAuthReq).1 =
      .ok ("Unregistered " ++ "michael@mergington.edu" ++ " from " ++ "Chess Club") ∧
    dictLookup "Chess Club"
      (unregister_from_activity sampleState "Chess Club" "michael@mergington.edu"
        sampleAuthReq).2.activities =
      some { chessClub with
             participants := removeFirst "michael@mergington.edu" chessClub.participants } ∧
    (removeFirst "michael@mergington.edu" chessClub.participants).count
        "michael@mergington.edu" + 1 =
      chessClub.participants.count "michael@mergington.edu" ∧
    (unregister_from_activity
      (unregister_from_activity sampleState "Chess Club" "michael@mergington.edu"
        sampleAuthReq).2
      "Chess Club" "michael@mergington.edu" sampleAuthReq).1 =
      .error ⟨400, "Student is not signed up for this activity"⟩ ∧
    (unregister_from_activity
      (unregister_from_activity sampleState "Chess Club" "michael@mergington.edu"
        sampleAuthReq).2
      "Chess Club" "michael@mergington.edu" sampleAuthReq).2 =
      (unregister_from_activity sampleState "Chess Club" "michael@mergington.edu"
        sampleAuthReq).2 :=
  unregister_removes_one_and_not_idempotent sampleState "Chess Club"
    "michael@mergington.edu" sampleAuthReq "alice" (by rfl) chessClub (by rfl)
    (by decide) (by decide)

/-- **C3.** Authentication is checked before activity existence: for an
activity name absent from the store, a caller with no valid session token
gets HTTP 401 from both signup and unregister, while an authenticated caller
gets HTTP 404 "Activity not found" from both. -/
theorem auth_checked_before_existence (s : AppState) (name email : String)
    (r : Request) (habs : dictLookup name s.activities = none) :
    ((∀ t, get_token_from_request r = some t →
        t = "" ∨ dictLookup t s.sessions = none) →
      (signup_for_activity s name email r).1 =
          .error ⟨401, "Admin authentication required"⟩ ∧
      (unregister_from_activity s name email r).1 =
          .error ⟨401, "Admin authentication required"⟩) ∧
    (∀ u, require_teacher s r = .ok u →
      (signup_for_activity s name email r).1 = .error ⟨404, "Activity not found"⟩ ∧
      (unregister_from_activity s name email r).1 =
        .error ⟨404, "Activity not found"⟩) := by
  constructor
  · intro hno
    have herr : require_teacher s r = .error ⟨401, "Admin authentication required"⟩ := by
      unfold require_teacher
      cases htok : get_token_from_request r
      · rfl
      · rename_i t
        rcases hno t htok with ht | hl
        · simp [ht]
        · by_cases ht : t = "" <;> simp [ht, hl]
    exact ⟨by rw [signup_unauth s name email r _ herr],
           by rw [unregister_unauth s name email r _ herr]⟩
  · intro u hu
    exact ⟨by rw [signup_notfound s name email r u hu habs],
           by rw [unregister_notfound s name email r u hu habs]⟩

/-- Witness for C3: the unknown activity "Nope" against `sampleState`, once
with no token and once with the valid token. -/
theorem auth_checked_before_existence_witness :
    (signup_for_activity sampleState "Nope" "x@x.edu" sampleAnonReq).1 =
        .error ⟨401, "Admin authentication required"⟩ ∧
    (unregister_from_activity sampleState "Nope" "x@x.edu" sampleAnonReq).1 =
        .error ⟨401, "Admin authentication required"⟩ ∧
    (signup_for_activity sampleState "Nope" "x@x.edu" sampleAuthReq).1 =
        .error ⟨404, "Activity not found"⟩ ∧
    (unregister_from_activity sampleState "Nope" "x@x.edu" sampleAuthReq).1 =
        .error ⟨404, "Activity not found"⟩ := by
  have h1 := auth_checked_before_existence sampleState "Nope" "x@x.edu" sampleAnonReq
    (by rfl)
  have h2 := auth_checked_before_existence sampleState "Nope" "x@x.edu" sampleAuthReq
    (by rfl)
  have ha := h1.1 (by intro t ht; simp [get_token_from_request, sampleAnonReq] at ht)
  have hb := h2.2 "alice" (by rfl)
  exact ⟨ha.1, ha.2, hb.1, hb.2⟩

/-- **C8.** Signup performs no capacity check: even when the participant list
is already at or above `max_participants`, an authenticated signup of a new
email succeeds and appends it. -/
theorem signup_ignores_capacity (s : AppState) (A E : String) (r : Request)
    (u : String) (hauth : require_teacher s r = .ok u) (act : Activity)
    (hA : dictLookup A s.activities = some act) (hE : E ∉ act.participants)
    (hfull : act.max_participants ≤ act.participants.length) :
    (signup_for_activity s A E r).1 = .ok ("Signed up " ++ E ++ " for " ++ A) ∧
    dictLookup A (signup_for_activity s A E r).2.activities =
      some { act with participants := act.participants ++ [E] } := by
  have hs := signup_success s A E r u hauth act hA hE
  constructor
  · rw [hs]
  · rw [hs]
    show dictLookup A
        (dictUpdate A (fun a => { a with participants := a.participants ++ [E] })
          s.activities) =
      some { act with participants := act.participants ++ [E] }
    rw [dictLookup_dictUpdate_self, hA]
    rfl

/-- An activity already over its (informational) capacity. -/
def tinyClub : Activity :=
  { description := "A club that is already over capacity",
    schedule := "Mondays",
    max_participants := 1,
    participants := ["a@x.edu", "b@x.edu"] }

/-- A state containing the over-capacity `tinyClub` and one valid session. -/
def fullState : AppState :=
  { sessions := [("tok1", "alice")], teachers := [("alice", "pw")],
    activities := [("Tiny Club", tinyClub)] }

/-- Witness for C8: `tinyClub` holds 2 participants against a cap of 1, yet
signup succeeds. -/
theorem signup_ignores_capacity_witness :
    (signup_for_activity fullState "Tiny Club" "c@x.edu" sampleAuthReq).1 =
      .ok ("Signed up " ++ "c@x.edu" ++ " for " ++ "Tiny Club") ∧
    dictLookup "Tiny Club"
      (signup_for_activity fullState "Tiny Club" "c@x.edu" sampleAuthReq).2.activities =
      some { tinyClub with participants := tinyClub.participants ++ ["c@x.edu"] } :=
  signup_ignores_capacity fullState "Tiny Club" "c@x.edu" sampleAuthReq "alice"
    (by rfl) tinyClub (by rfl) (by decide) (by decide)

/-! ### Frame condition (C9) -/

theorem signup_state_cases (s : AppState) (name email : String) (r : Request) :
    (signup_for_activity s name email r).2 = s ∨
    (signup_for_activity s name email r).2 =
      { s with activities := (dictUpdate name
          (fun a => { a with participants := a.participants ++ [email] })
          s.activities) } := by
  cases hr : require_teacher s r with
  | error e =>
    rw [signup_unauth s name email r e hr]
    exact Or.inl rfl
  | ok u =>
    cases hA : dictLookup name s.activities with
    | none =>
      rw [signup_notfound s name email r u hr hA]
      exact Or.inl rfl
    | some act =>
      by_cases hE : email ∈ act.participants
      · rw [signup_already s name email r u hr act hA hE]
        exact Or.inl rfl
      · rw [signup_success s name email r u hr act hA hE]
        exact Or.inr rfl

theorem unregister_state_cases (s : AppState) (name email : String) (r : Request) :
    (unregister_from_activity s name email r).2 = s ∨
    (unregister_from_activity s name email r).2 =
      { s with activities := (dictUpdate name
          (fun a => { a with participants := removeFirst email a.participants })
          s.activities) } := by
  cases hr : require_teacher s r with
  | error e =>
    rw [unregister_unauth s name email r e hr]
    exact Or.inl rfl
  | ok u =>
    cases hA : dictLookup name s.activities with
    | none =>
      rw [unregister_notfound s name email r u hr hA]
      exact Or.inl rfl
    | some act =>
      by_cases hE : email ∈ act.participants
      · rw [unregister_success s name email r u hr act hA hE]
        exact Or.inr rfl
      · rw [unregister_notsigned s name email r u hr act hA hE]
        exact Or.inl rfl

theorem activities_update_frame (d : List (String × Activity)) (name : String)
    (g : List String → List String) :
    (dictUpdate name (fun a => { a with participants := g a.participants }) d).map
        Prod.fst = d.map Prod.fst ∧
    (∀ n, n ≠ name →
      dictLookup n
        (dictUpdate name (fun a => { a with participants := g a.participants }) d) =
      dictLookup n d) ∧
    (∀ act act', dictLookup name d = some act →
      dictLookup name
        (dictUpdate name (fun a => { a with participants := g a.participants }) d) =
        some act' →
      act'.description = act.description ∧ act'.schedule = act.schedule ∧
      act'.max_participants = act.max_participants) := by
  refine ⟨dictUpdate_keys name _ d, fun n hn => dictLookup_dictUpdate_ne name n _ d hn,
          fun act act' hact hact' => ?_⟩
  rw [dictLookup_dictUpdate_self, hact] at hact'
  have : act' = { act with participants := g act.participants } :=
    (Option.some.inj hact').symm
  rw [this]
  exact ⟨rfl, rfl, rfl⟩

/-- **C9.** Frame condition: any signup or unregister call, whether it
succeeds or fails, leaves the set of activity names, every other activity's
entry, the named activity's description, schedule and `max_participants`,
the teacher directory and the session store all unchanged. -/
theorem signup_unregister_frame (s : AppState) (name email : String) (r : Request) :
    ((signup_for_activity s name email r).2.teachers = s.teachers ∧
     (signup_for_activity s name email r).2.sessions = s.sessions ∧
     (signup_for_activity s name email r).2.activities.map Prod.fst =
       s.activities.map Prod.fst ∧
     (∀ n, n ≠ name →
       dictLookup n (signup_for_activity s name email r).2.activities =
         dictLookup n s.activities) ∧
     (∀ act act', dictLookup name s.activities = some act →
       dictLookup name (signup_for_activity s name email r).2.activities = some act' →
       act'.description = act.description ∧ act'.schedule = act.schedule ∧
       act'.max_participants = act.max_participants)) ∧
    ((unregister_from_activity s name email r).2.teachers = s.teachers ∧
     (unregister_from_activity s name email r).2.sessions = s.sessions ∧
     (unregister_from_activity s name email r).2.activities.map Prod.fst =
       s.activities.map Prod.fst ∧
     (∀ n, n ≠ name →
       dictLookup n (unregister_from_activity s name email r).2.activities =
         dictLookup n s.activities) ∧
     (∀ act act', dictLookup name s.activities = some act →
       dictLookup name (unregister_from_activity s name email r).2.activities =
         some act' →
       act'.description = act.description ∧ act'.schedule = act.schedule ∧
       act'.max_participants = act.max_participants)) := by
  constructor
  · rcases signup_state_cases s name email r with h | h <;> rw [h]
    · refine ⟨rfl, rfl, rfl, fun n _ => rfl, fun act act' hact hact' => ?_⟩
      rw [hact] at hact'
      rw [(Option.some.inj hact').symm]
      exact ⟨rfl, rfl, rfl⟩
    · have hf := activities_update_frame s.activities name (fun ps => ps ++ [email])
      exact ⟨rfl, rfl, hf.1, hf.2.1, hf.2.2⟩
  · rcases unregister_state_cases s name email r with h | h <;> rw [h]
    · refine ⟨rfl, rfl, rfl, fun n _ => rfl, fun act act' hact hact' => ?_⟩
      rw [hact] at hact'
      rw [(Option.some.inj hact').symm]
      exact ⟨rfl, rfl, rfl⟩
    · have hf := activities_update_frame s.activities name
        (fun ps => removeFirst email ps)
      exact ⟨rfl, rfl, hf.1, hf.2.1, hf.2.2⟩

/-- Witness for C9: a successful Chess Club signup touches neither the
sessions, the teachers, the name set, nor the Math Club entry. -/
theorem signup_unregister_frame_witness :
    (signup_for_activity sampleState "Chess Club" "new@x.edu" sampleAuthReq).2.teachers =
      sampleState.teachers ∧
    (signup_for_activity sampleState "Chess Club" "new@x.edu" sampleAuthReq).2.sessions =
      sampleState.sessions ∧
    (signup_for_activity sampleState "Chess Club" "new@x.edu"
        sampleAuthReq).2.activities.map Prod.fst =
      sampleState.activities.map Prod.fst ∧
    dictLookup "Math Club"
      (signup_for_activity sampleState "Chess Club" "new@x.edu"
        sampleAuthReq).2.activities =
      dictLookup "Math Club" sampleState.activities ∧
    (unregister_from_activity sampleState "Chess Club" "michael@mergington.edu"
        sampleAuthReq).2.sessions =
      sampleState.sessions := by
  have h := signup_unregister_frame sampleState "Chess Club" "new@x.edu" sampleAuthReq
  have h' := signup_unregister_frame sampleState "Chess Club" "michael@mergington.edu"
    sampleAuthReq
  exact ⟨h.1.1, h.1.2.1, h.1.2.2.1, h.1.2.2.2.1 "Math Club" (by decide), h'.2.2.1⟩

/-! ### Login and logout -/

theorem admin_login_success (s : AppState) (u p tok : String)
    (hu : u ≠ "") (hp : p ≠ "") (hlook : dictLookup u s.teachers = some p) :
    admin_login s ⟨some u, some p⟩ tok =
      (.ok tok, { s with sessions := (dictInsert tok u s.sessions) }) := by
  simp [admin_login, hu, hp, hlook]

theorem admin_login_invalid (s : AppState) (u p tok : String)
    (hu : u ≠ "") (hp : p ≠ "") (hbad : dictLookup u s.teachers ≠ some p) :
    admin_login s ⟨some u, some p⟩ tok =
      (.error ⟨401, "invalid credentials"⟩, s) := by
  simp [admin_login, hu, hp, hbad]

theorem admin_logout_message (s : AppState) (r : Request) :
    (admin_logout s r).1 = "logged out" := by
  unfold admin_logout
  split
  · split <;> rfl
  · rfl

theorem admin_logout_removes (s : AppState) (tok : String) (htok : tok ≠ "")
    (hsome : (dictLookup tok s.sessions).isSome) :
    admin_logout s ⟨some tok, none⟩ =
      ("logged out", { s with sessions := (dictErase tok s.sessions) }) := by
  have hget : get_token_from_request ⟨some tok, none⟩ = some tok := by
    simp [get_token_from_request, htok]
  simp [admin_logout, hget, htok, hsome]

theorem dictInsert_of_fresh {α : Type} (k : String) (v : α) (d : List (String × α))
    (h : dictLookup k d = none) : dictInsert k v d = d ++ [(k, v)] := by
  induction d with
  | nil => rfl
  | cons p rest ih =>
    obtain ⟨k₀, v₀⟩ := p
    by_cases hk : k₀ = k
    · rw [show dictLookup k ((k₀, v₀) :: rest) = some v₀ from by simp [dictLookup, hk]]
        at h
      exact absurd h (by simp)
    · rw [show dictLookup k ((k₀, v₀) :: rest) = dictLookup k rest from by
        simp [dictLookup, hk]] at h
      rw [show dictInsert k v ((k₀, v₀) :: rest) = (k₀, v₀) :: dictInsert k v rest from by
        simp [dictInsert, hk]]
      rw [ih h]
      rfl

/-- **C6.** Given a payload whose username and password are both present and
non-empty, login fails with HTTP 401 "invalid credentials" exactly when the
username is absent from the teacher directory or the stored password differs
from the supplied one; on that failure the session store is unchanged. -/
theorem login_invalid_credentials_iff (s : AppState) (u p tok : String)
    (hu : u ≠ "") (hp : p ≠ "") :
    ((admin_login s ⟨some u, some p⟩ tok).1 = .error ⟨401, "invalid credentials"⟩ ↔
      (dictLookup u s.teachers = none ∨
        ∃ sp, dictLookup u s.teachers = some sp ∧ sp ≠ p)) ∧
    ((admin_login s ⟨some u, some p⟩ tok).1 = .error ⟨401, "invalid credentials"⟩ →
      (admin_login s ⟨some u, some p⟩ tok).2.sessions = s.sessions) := by
  by_cases hbad : dictLookup u s.teachers = some p
  · rw [admin_login_success s u p tok hu hp hbad]
    refine ⟨⟨fun h => absurd h (by simp), ?_⟩, fun h => absurd h (by simp)⟩
    rintro (h | ⟨sp, hsp, hne⟩)
    · rw [hbad] at h
      exact absurd h (by simp)
    · rw [hbad] at hsp
      exact absurd (Option.some.inj hsp).symm hne
  · rw [admin_login_invalid s u p tok hu hp hbad]
    refine ⟨⟨fun _ => ?_, fun _ => rfl⟩, fun _ => rfl⟩
    cases hlook : dictLookup u s.teachers with
    | none => exact Or.inl rfl
    | some sp =>
      refine Or.inr ⟨sp, rfl, fun he => hbad ?_⟩
      rw [hlook, he]

/-- Witness for C6: the wrong password "bad" for the stored teacher "alice"
is rejected with 401 and creates no session. -/
theorem login_invalid_credentials_iff_witness :
    (admin_login sampleState ⟨some "alice", some "bad"⟩ "t").1 =
      .error ⟨401, "invalid credentials"⟩ ∧
    (admin_login sampleState ⟨some "alice", some "bad"⟩ "t").2.sessions =
      sampleState.sessions := by
  have h := login_invalid_credentials_iff sampleState "alice" "bad" "t"
    (by decide) (by decide)
  have h1 : (admin_login sampleState ⟨some "alice", some "bad"⟩ "t").1 =
      .error ⟨401, "invalid credentials"⟩ :=
    h.1.mpr (Or.inr ⟨"pw", by rfl, by decide⟩)
  exact ⟨h1, h.2 h1⟩

/-- **C10.** Login treats an empty-string field as missing: whenever the
payload's username or password is present but equal to `""`, the call fails
with HTTP 400 "username and password required" (never 401) and leaves the
state unchanged — even in a state where `""` is the stored password. -/
theorem login_blank_field_is_missing (s : AppState) (tok : String)
    (username password : Option String)
    (hblank : username = some "" ∨ password = some "") :
    (admin_login s ⟨username, password⟩ tok).1 =
      .error ⟨400, "username and password required"⟩ ∧
    (admin_login s ⟨username, password⟩ tok).2 = s := by
  cases username with
  | none =>
    cases password with
    | none => exact ⟨rfl, rfl⟩
    | some p => exact ⟨rfl, rfl⟩
  | some u =>
    cases password with
    | none => exact ⟨rfl, rfl⟩
    | some p =>
      have hcond : u = "" ∨ p = "" := by
        rcases hblank with h | h
        · exact Or.inl (Option.some.inj h)
        · exact Or.inr (Option.some.inj h)
      simp only [admin_login]
      rw [if_pos hcond]
      exact ⟨rfl, rfl⟩

/-- A state whose teacher directory stores the empty string as a password. -/
def emptyPwState : AppState :=
  { sessions := [], teachers := [("alice", "")], activities := initActivities }

/-- Witness for C10: supplying the (stored!) empty password still yields the
missing-field 400, not 401. -/
theorem login_blank_field_is_missing_witness :
    dictLookup "alice" emptyPwState.teachers = some "" ∧
    (admin_login emptyPwState ⟨some "alice", some ""⟩ "t").1 =
      .error ⟨400, "username and password required"⟩ ∧
    (admin_login emptyPwState ⟨some "alice", some ""⟩ "t").2 = emptyPwState :=
  ⟨rfl,
   (login_blank_field_is_missing emptyPwState "t" (some "alice") (some "")
     (Or.inr rfl)).1,
   (login_blank_field_is_missing emptyPwState "t" (some "alice") (some "")
     (Or.inr rfl)).2⟩

/-- Counterexample to C7 as stated: the teacher directory is loaded from an
arbitrary JSON object, so it may map a username to the empty string; for
such an entry login returns the missing-field 400 error instead of
succeeding. -/
theorem login_every_entry_counterexample :
    dictLookup "alice" emptyPwState.teachers = some "" ∧
    (admin_login emptyPwState ⟨some "alice", some ""⟩ "t").1 =
      .error ⟨400, "username and password required"⟩ :=
  ⟨rfl, rfl⟩

/-- **C7 (amended).** For every teacher entry `(u, p)` whose username and
password are non-empty, login succeeds and returns the generated token `T`
with `resolveSession T = u`; after a logout request carrying `T`,
`resolveSession T` is `none` (Unauthenticated); and a further identical
logout still reports success.  (`T` is `uuid4().hex`, hence non-empty, and a
Python dict never has duplicate keys, hence the two side conditions.) -/
theorem login_logout_roundtrip (s : AppState) (u p tok : String)
    (hu : u ≠ "") (hp : p ≠ "") (hlook : dictLookup u s.teachers = some p)
    (htok : tok ≠ "") (hnd : (s.sessions.map Prod.fst).Nodup) :
    (admin_login s ⟨some u, some p⟩ tok).1 = .ok tok ∧
    resolveSession (admin_login s ⟨some u, some p⟩ tok).2 tok = some u ∧
    (admin_logout (admin_login s ⟨some u, some p⟩ tok).2 ⟨some tok, none⟩).1 =
      "logged out" ∧
    resolveSession
      (admin_logout (admin_login s ⟨some u, some p⟩ tok).2 ⟨some tok, none⟩).2 tok =
      none ∧
    (admin_logout
      (admin_logout (admin_login s ⟨some u, some p⟩ tok).2 ⟨some tok, none⟩).2
      ⟨some tok, none⟩).1 = "logged out" := by
  have hs := admin_login_success s u p tok hu hp hlook
  have hres : resolveSession (admin_login s ⟨some u, some p⟩ tok).2 tok = some u := by
    rw [hs]
    exact dictLookup_dictInsert_self tok u s.sessions
  have hsome : (dictLookup tok (admin_login s ⟨some u, some p⟩ tok).2.sessions).isSome := by
    show (resolveSession (admin_login s ⟨some u, some p⟩ tok).2 tok).isSome
    rw [hres]
    rfl
  have hout := admin_logout_removes (admin_login s ⟨some u, some p⟩ tok).2 tok htok hsome
  refine ⟨by rw [hs], hres, by rw [hout], ?_, admin_logout_message _ _⟩
  rw [hout]
  show dictLookup tok (dictErase tok (admin_login s ⟨some u, some p⟩ tok).2.sessions) =
    none
  apply dictLookup_dictErase_self
  rw [hs]
  exact keys_dictInsert_nodup tok u s.sessions hnd

/-- Witness for C7 (amended): teacher "alice" on `sampleState`, generated
token "newtok". -/
theorem login_logout_roundtrip_witness :
    (admin_login sampleState ⟨some "alice", some "pw"⟩ "newtok").1 = .ok "newtok" ∧
    resolveSession (admin_login sampleState ⟨some "alice", some "pw"⟩ "newtok").2
      "newtok" = some "alice" ∧
    (admin_logout (admin_login sampleState ⟨some "alice", some "pw"⟩ "newtok").2
      ⟨some "newtok", none⟩).1 = "logged out" ∧
    resolveSession
      (admin_logout (admin_login sampleState ⟨some "alice", some "pw"⟩ "newtok").2
        ⟨some "newtok", none⟩).2 "newtok" = none ∧
    (admin_logout
      (admin_logout (admin_login sampleState ⟨some "alice", some "pw"⟩ "newtok").2
        ⟨some "newtok", none⟩).2 ⟨some "newtok", none⟩).1 = "logged out" :=
  login_logout_roundtrip sampleState "alice" "pw" "newtok" (by decide) (by decide)
    (by rfl) (by decide) (by decide)

/-- A session store already holding the very token the generator is about to
return. -/
def collisionState : AppState :=
  { sessions := [("00000000000040008000000000000000", "alice")], teachers := [("bob", "pw")],
    activities := initActivities }

/-- Counterexample to C4 as stated: the code inserts `uuid4().hex` into the
session store without any freshness check, so a generated token that equals
an existing key silently overwrites that session ("alice" loses hers to
"bob"). -/
theorem login_token_collision_counterexample :
    dictLookup "00000000000040008000000000000000" collisionState.sessions = some "alice" ∧
    (admin_login collisionState ⟨some "bob", some "pw"⟩ "00000000000040008000000000000000").1 =
      .ok "00000000000040008000000000000000" ∧
    (admin_login collisionState ⟨some "bob", some "pw"⟩ "00000000000040008000000000000000").2.sessions =
      [("00000000000040008000000000000000", "bob")] :=
  ⟨rfl, rfl, rfl⟩

/-- **C4 (amended).** A successful login stores the generated token by plain
dictionary assignment: the token then resolves to the logged-in username,
and only when the generated token is fresh (not already a key) is the store
extended without touching any existing session.  Freshness itself is not
checked by the code. -/
theorem login_token_insert (s : AppState) (u p tok : String)
    (hu : u ≠ "") (hp : p ≠ "") (hlook : dictLookup u s.teachers = some p) :
    resolveSession (admin_login s ⟨some u, some p⟩ tok).2 tok = some u ∧
    (dictLookup tok s.sessions = none →
      (admin_login s ⟨some u, some p⟩ tok).2.sessions = s.sessions ++ [(tok, u)]) := by
  have hs := admin_login_success s u p tok hu hp hlook
  constructor
  · rw [hs]
    exact dictLookup_dictInsert_self tok u s.sessions
  · intro hfresh
    rw [hs]
    exact dictInsert_of_fresh tok u s.sessions hfresh

/-- Witness for C4 (amended): a fresh token on `sampleState` is appended and
resolves to "alice". -/
theorem login_token_insert_witness :
    resolveSession (admin_login sampleState ⟨some "alice", some "pw"⟩ "newtok").2
      "newtok" = some "alice" ∧
    (admin_login sampleState ⟨some "alice", some "pw"⟩ "newtok").2.sessions =
      sampleState.sessions ++ [("newtok", "alice")] := by
  have h := login_token_insert sampleState "alice" "pw" "newtok" (by decide)
    (by decide) (by rfl)
  exact ⟨h.1, h.2 (by rfl)⟩

/-! ### Reachability and the no-duplicate invariant (C5) -/

/-- One request against the application: each state-bearing endpoint with
arbitrary arguments, plus the read-only `GET /activities`. -/
inductive Step : AppState → AppState → Prop where
  | signup (s : AppState) (name email : String) (r : Request) :
      Step s (signup_for_activity s name email r).2
  | unregister (s : AppState) (name email : String) (r : Request) :
      Step s (unregister_from_activity s name email r).2
  | login (s : AppState) (payload : LoginPayload) (token : String) :
      Step s (admin_login s payload token).2
  | logout (s : AppState) (r : Request) :
      Step s (admin_logout s r).2
  | listActivities (s : AppState) : Step s s

/-- The states reachable from startup, for an arbitrary loaded teacher
directory. -/
inductive Reachable : AppState → Prop where
  | init (ts : List (String × String)) : Reachable (initState ts)
  | step {s s' : AppState} : Reachable s → Step s s' → Reachable s'

/-- The invariant: no email appears twice in any one activity's participant
list. -/
def NoDupParticipants (s : AppState) : Prop :=
  ∀ q ∈ s.activities, (Prod.snd q).participants.Nodup

theorem initActivities_nodup :
    ∀ q ∈ initActivities, (Prod.snd q).participants.Nodup := by
  decide

theorem initState_nodup (ts : List (String × String)) :
    NoDupParticipants (initState ts) :=
  fun q hq => initActivities_nodup q hq

theorem signup_preserves_nodup (s : AppState) (name email : String) (r : Request)
    (h : NoDupParticipants s) :
    NoDupParticipants (signup_for_activity s name email r).2 := by
  cases hr : require_teacher s r with
  | error e =>
    rw [signup_unauth s name email r e hr]
    exact h
  | ok u =>
    cases hA : dictLookup name s.activities with
    | none =>
      rw [signup_notfound s name email r u hr hA]
      exact h
    | some act =>
      by_cases hE : email ∈ act.participants
      · rw [signup_already s name email r u hr act hA hE]
        exact h
      · rw [signup_success s name email r u hr act hA hE]
        intro q hq
        rcases mem_dictUpdate name
            (fun a => { a with participants := a.participants ++ [email] })
            s.activities q hq with hmem | ⟨v, hv, hq'⟩
        · exact h q hmem
        · rw [hA] at hv
          have hva : v = act := (Option.some.inj hv).symm
          rw [hq', hva]
          have hact : act.participants.Nodup :=
            h (name, act) (dictLookup_mem name act s.activities hA)
          show (act.participants ++ [email]).Nodup
          simp [List.nodup_append, hact, hE]

theorem unregister_preserves_nodup (s : AppState) (name email : String) (r : Request)
    (h : NoDupParticipants s) :
    NoDupParticipants (unregister_from_activity s name email r).2 := by
  cases hr : require_teacher s r with
  | error e =>
    rw [unregister_unauth s name email r e hr]
    exact h
  | ok u =>
    cases hA : dictLookup name s.activities with
    | none =>
      rw [unregister_notfound s name email r u hr hA]
      exact h
    | some act =>
      by_cases hE : email ∈ act.participants
      · rw [unregister_success s name email r u hr act hA hE]
        intro q hq
        rcases mem_dictUpdate name
            (fun a => { a with participants := removeFirst email a.participants })
            s.activities q hq with hmem | ⟨v, hv, hq'⟩
        · exact h q hmem
        · rw [hA] at hv
          have hva : v = act := (Option.some.inj hv).symm
          rw [hq', hva]
          have hact : act.participants.Nodup :=
            h (name, act) (dictLookup_mem name act s.activities hA)
          show (removeFirst email act.participants).Nodup
          exact removeFirst_nodup email act.participants hact
      · rw [unregister_notsigned s name email r u hr act hA hE]
        exact h

theorem admin_login_activities (s : AppState) (payload : LoginPayload) (tok : String) :
    (admin_login s payload tok).2.activities = s.activities := by
  unfold admin_login
  split
  · split
    · rfl
    · split <;> rfl
  · rfl

theorem admin_logout_activities (s : AppState) (r : Request) :
    (admin_logout s r).2.activities = s.activities := by
  unfold admin_logout
  split
  · split <;> rfl
  · rfl

/-- **C5.** The predicate "no email appears twice in one activity's
participant list" holds in the seeded initial state (for any loaded teacher
directory) and is preserved by every operation, so it holds in every
reachable state. -/
theorem reachable_no_duplicate_participants (s : AppState) (h : Reachable s) :
    NoDupParticipants s := by
  induction h with
  | init ts => exact initState_nodup ts
  | step hr hstep ih =>
    cases hstep with
    | signup name email r => exact signup_preserves_nodup _ name email r ih
    | unregister name email r => exact unregister_preserves_nodup _ name email r ih
    | login payload token =>
      intro q hq
      rw [admin_login_activities _ payload token] at hq
      exact ih q hq
    | logout r =>
      intro q hq
      rw [admin_logout_activities _ r] at hq
      exact ih q hq
    | listActivities => exact ih

/-- Witness for C5 at the startup state with an empty teacher file. -/
theorem reachable_no_duplicate_participants_witness :
    NoDupParticipants (initState []) :=
  reachable_no_duplicate_participants (initState []) (Reachable.init [])

end Mergington
